import Mathlib

/-!
Verification of the pullcord authentication core: the PBKDF2-based
in-memory password store (`inmempwdstore.go`) and the login-handler
request state machine.

Bytes are modelled as `Nat` (with `< 256` hypotheses where byte-ness
matters).  External collaborators are modelled as parameters:
* the PBKDF2 key-derivation function `pbkdf2.Key` (external library
  `golang.org/x/crypto/pbkdf2`) is a function parameter
  `kdf : String → List Nat → Nat → List Nat`
  (password, salt, iteration count ↦ derived key of length
  `Pbkdf2KeyLength`, per the library's contract);
* the entropy source `crypto/rand.Read` is modelled by the resulting
  buffer contents, byte count, and error of one read;
* the session backend is an association list with the
  `GetValue`/`SetValue` contract.
-/

namespace Pullcord

/-- Error values of the authentication package.  The Go code compares
errors by identity against package-level constants, which an inductive
type with decidable equality captures. -/
inductive GoErr
  | insufficientIterations
  | insufficientEntropy
  | noSuchIdentifier
  | badPassword
  | incorrectSaltLength
  | incorrectHashLength
  | corruptBase64
  | otherError (msg : String)
  deriving DecidableEq, Repr

/-- Model of Go `crypto/subtle.ConstantTimeCompare`: returns 0 when the
lengths differ, otherwise ORs together the XORs of corresponding bytes
and returns 1 exactly when the accumulator is zero. -/
def constantTimeCompare (x y : List Nat) : Nat :=
  if x.length ≠ y.length then 0
  else if (x.zip y).foldl (fun v p => v ||| (p.1 ^^^ p.2)) 0 = 0 then 1
  else 0

/-- Model of Go `crypto/subtle.ConstantTimeCopy` with flag `v`: when
`v = 1` the destination becomes the source.  Callers in this code base
only invoke it with equal-length slices (the PBKDF2 contract fixes the
key length), so the panic on mismatched lengths is not modelled. -/
def constantTimeCopy (v : Nat) (dst src : List Nat) : List Nat :=
  if v = 1 then src else dst

/-- Pbkdf2KeyLength is the length (in bytes) of the generated PBKDF2
hashes (Go constant). -/
def Pbkdf2KeyLength : Nat := 64

/-- Pbkdf2MinIterations is the minimum number of iterations allowed for
PBKDF2 hashes (Go constant, `uint16(4096)`). -/
def Pbkdf2MinIterations : Nat := 4096

/-- Model of the `Pbkdf2Hash` struct: a derived hash, a salt (both
`[Pbkdf2KeyLength]byte` in Go, here byte lists) and an iteration count
(`uint16` in Go, here a `Nat`). -/
structure Pbkdf2Hash where
  Hash : List Nat
  Salt : List Nat
  Iterations : Nat
  deriving DecidableEq, Repr

/-- Result of one `crypto/rand.Read` call on a `Pbkdf2KeyLength`-byte
buffer: the buffer contents afterwards, the returned count, and the
returned error. -/
structure EntropySource where
  bytes : List Nat
  count : Nat
  err : Option GoErr
  deriving Repr

/-- Model of `GetPbkdf2Hash`: reject iteration counts below the floor,
propagate an entropy-read error, reject a short entropy read, otherwise
build the record with a constant-time copy of the derived key. -/
def GetPbkdf2Hash (kdf : String → List Nat → Nat → List Nat)
    (ent : EntropySource) (password : String) (iterations : Nat) :
    Except GoErr Pbkdf2Hash :=
  if iterations < Pbkdf2MinIterations then
    .error .insufficientIterations
  else
    match ent.err with
    | some e => .error e
    | none =>
      if ent.count ≠ Pbkdf2KeyLength then
        .error .insufficientEntropy
      else
        .ok { Hash := constantTimeCopy 1 (List.replicate Pbkdf2KeyLength 0)
                (kdf password ent.bytes iterations)
            , Salt := ent.bytes
            , Iterations := iterations }

/-- Model of `Pbkdf2Hash.Check`: recompute the derivation with the
stored salt and iteration count and compare in constant time; `none`
means success, mirroring a `nil` Go error. -/
def Pbkdf2Hash.Check (kdf : String → List Nat → Nat → List Nat)
    (hashStruct : Pbkdf2Hash) (password : String) : Option GoErr :=
  let genHash := kdf password hashStruct.Salt hashStruct.Iterations
  if constantTimeCompare hashStruct.Hash genHash = 1 then none
  else some .badPassword

/-- Model of the `InMemPwdStore` map type as an association list. -/
abbrev InMemPwdStore := List (String × Pbkdf2Hash)

/-- Model of `InMemPwdStore.CheckPassword`: look the identifier up,
fail with `noSuchIdentifier` when absent, otherwise delegate to
`Pbkdf2Hash.Check`. -/
def InMemPwdStore.CheckPassword (kdf : String → List Nat → Nat → List Nat)
    (store : InMemPwdStore) (id pass : String) : Option GoErr :=
  match store.lookup id with
  | none => some .noSuchIdentifier
  | some hs => hs.Check kdf pass

/-! Correctness of the constant-time comparison model. -/

theorem nat_or_eq_zero_iff (a b : Nat) : a ||| b = 0 ↔ a = 0 ∧ b = 0 := by
  constructor
  · intro h
    have h1 : ∀ i, a.testBit i = false ∧ b.testBit i = false := by
      intro i
      have := congrArg (fun n => Nat.testBit n i) h
      simpa [Nat.testBit_or] using this
    exact ⟨Nat.eq_of_testBit_eq fun i => by simp [(h1 i).1],
      Nat.eq_of_testBit_eq fun i => by simp [(h1 i).2]⟩
  · rintro ⟨rfl, rfl⟩
    rfl

theorem ctFold_eq_zero_iff (l : List (Nat × Nat)) (acc : Nat) :
    l.foldl (fun v p => v ||| (p.1 ^^^ p.2)) acc = 0 ↔
      acc = 0 ∧ ∀ p ∈ l, p.1 = p.2 := by
  induction l generalizing acc with
  | nil => simp
  | cons hd tl ih =>
    simp only [List.foldl_cons, ih, List.mem_cons, nat_or_eq_zero_iff]
    constructor
    · rintro ⟨⟨h1, h2⟩, h3⟩
      refine ⟨h1, ?_⟩
      rintro p (rfl | hp)
      · exact Nat.xor_eq_zero.mp h2
      · exact h3 p hp
    · rintro ⟨h1, h2⟩
      exact ⟨⟨h1, Nat.xor_eq_zero.mpr (h2 hd (Or.inl rfl))⟩,
        fun p hp => h2 p (Or.inr hp)⟩

theorem zip_self_fst_eq_snd (x : List Nat) : ∀ p ∈ x.zip x, p.1 = p.2 := by
  induction x with
  | nil => simp
  | cons a as ih =>
    intro p hp
    simp only [List.zip_cons_cons, List.mem_cons] at hp
    rcases hp with rfl | hp
    · rfl
    · exact ih p hp

theorem eq_of_zip_eq (x y : List Nat) (hlen : x.length = y.length)
    (h : ∀ p ∈ x.zip y, p.1 = p.2) : x = y := by
  induction x generalizing y with
  | nil => cases y <;> simp_all
  | cons a as ih =>
    cases y with
    | nil => simp at hlen
    | cons b bs =>
      simp only [List.zip_cons_cons, List.mem_cons] at h
      have hab : a = b := h (a, b) (Or.inl rfl)
      have : as = bs := by
        apply ih
        · simpa using hlen
        · intro p hp
          exact h p (Or.inr hp)
      simp [hab, this]

theorem constantTimeCompare_eq_one_iff (x y : List Nat) :
    constantTimeCompare x y = 1 ↔ x = y := by
  unfold constantTimeCompare
  constructor
  · intro h
    by_cases hlen : x.length = y.length
    · simp only [hlen, ne_eq, not_true_eq_false, if_false] at h
      by_cases hz : (x.zip y).foldl (fun v p => v ||| (p.1 ^^^ p.2)) 0 = 0
      · exact eq_of_zip_eq x y hlen ((ctFold_eq_zero_iff _ _).mp hz).2
      · simp [hz] at h
    · simp [hlen] at h
  · rintro rfl
    have hz : (x.zip x).foldl (fun v p => v ||| (p.1 ^^^ p.2)) 0 = 0 :=
      (ctFold_eq_zero_iff _ _).mpr ⟨rfl, zip_self_fst_eq_snd x⟩
    simp [hz]

theorem constantTimeCompare_self (x : List Nat) :
    constantTimeCompare x x = 1 :=
  (constantTimeCompare_eq_one_iff x x).mpr rfl

/-! Injectivity helpers used to instantiate the abstract KDF. -/

theorem uint32_toNat_inj (a b : UInt32) (h : a.toNat = b.toNat) : a = b := by
  cases a; cases b
  simp only [UInt32.toNat] at h
  congr 1
  exact BitVec.eq_of_toNat_eq h

theorem char_toNat_inj (a b : Char) (h : a.toNat = b.toNat) : a = b :=
  Char.ext (uint32_toNat_inj _ _ h)

/-- Byte-level view of a string, as used where the Go code converts a
string to `[]byte` (code points stand in for bytes; the conversion is
injective either way, which is all the proofs use). -/
def strBytes (s : String) : List Nat := s.data.map Char.toNat

theorem strBytes_inj (a b : String) (h : strBytes a = strBytes b) : a = b := by
  have hd : a.data = b.data :=
    List.map_injective_iff.mpr (fun x y hxy => char_toNat_inj x y hxy) h
  cases a; cases b; simp_all

/-- Concrete stand-in KDF used by witnesses: it returns the bytes of the
password, which makes it injective in the password. -/
def demoKdf : String → List Nat → Nat → List Nat := fun pw _ _ => strBytes pw

/-- Concrete entropy-source outcome used by witnesses: a full 64-byte
read with no error. -/
def demoEntropy : EntropySource :=
  { bytes := List.replicate 64 0, count := 64, err := none }

/-- C1: with an iteration count at least 4096 and a healthy entropy
source, `GetPbkdf2Hash` produces a record that `Check` accepts for the
generating password, and — for a KDF that separates distinct passwords —
rejects every different password with `badPassword`. -/
theorem C1_generate_then_check
    (kdf : String → List Nat → Nat → List Nat) (ent : EntropySource)
    (password other : String) (iterations : Nat)
    (hiter : Pbkdf2MinIterations ≤ iterations)
    (herr : ent.err = none) (hcount : ent.count = Pbkdf2KeyLength)
    (hinj : ∀ s it, Function.Injective fun pw => kdf pw s it)
    (hne : other ≠ password) :
    ∃ r, GetPbkdf2Hash kdf ent password iterations = Except.ok r ∧
      r.Check kdf password = none ∧
      r.Check kdf other = some GoErr.badPassword := by
  have hlt : ¬iterations < Pbkdf2MinIterations := Nat.not_lt.mpr hiter
  refine ⟨⟨constantTimeCopy 1 (List.replicate Pbkdf2KeyLength 0)
      (kdf password ent.bytes iterations), ent.bytes, iterations⟩, ?_, ?_, ?_⟩
  · simp [GetPbkdf2Hash, hlt, herr, hcount]
  · simp [Pbkdf2Hash.Check, constantTimeCopy, constantTimeCompare_self]
  · simp only [Pbkdf2Hash.Check, constantTimeCopy, if_pos rfl]
    rw [if_neg]
    intro hcmp
    have heq := (constantTimeCompare_eq_one_iff _ _).mp hcmp
    exact hne (hinj ent.bytes iterations heq.symm)

theorem C1_witness :
    ∃ r, GetPbkdf2Hash demoKdf demoEntropy "a" 4096 = Except.ok r ∧
      r.Check demoKdf "a" = none ∧
      r.Check demoKdf "ax" = some GoErr.badPassword :=
  C1_generate_then_check demoKdf demoEntropy "a" "ax" 4096 (by decide) rfl rfl
    (fun s it a b h => strBytes_inj a b h) (by decide)

/-- C5: an iteration count strictly below 4096 makes `GetPbkdf2Hash`
fail with `insufficientIterations` and produce no record. -/
theorem C5_insufficient_iterations
    (kdf : String → List Nat → Nat → List Nat) (ent : EntropySource)
    (password : String) (iterations : Nat)
    (h : iterations < Pbkdf2MinIterations) :
    GetPbkdf2Hash kdf ent password iterations =
      Except.error GoErr.insufficientIterations := by
  simp [GetPbkdf2Hash, h]

theorem C5_witness :
    GetPbkdf2Hash demoKdf demoEntropy "pw" 0 =
      Except.error GoErr.insufficientIterations :=
  C5_insufficient_iterations demoKdf demoEntropy "pw" 0 (by decide)

/-- C6: when the entropy read returns no error but fewer than 64 bytes
(with an acceptable iteration count), `GetPbkdf2Hash` fails with
`insufficientEntropy` and produces no record. -/
theorem C6_insufficient_entropy
    (kdf : String → List Nat → Nat → List Nat) (ent : EntropySource)
    (password : String) (iterations : Nat)
    (hiter : Pbkdf2MinIterations ≤ iterations)
    (herr : ent.err = none) (hcount : ent.count < Pbkdf2KeyLength) :
    GetPbkdf2Hash kdf ent password iterations =
      Except.error GoErr.insufficientEntropy := by
  have hlt : ¬iterations < Pbkdf2MinIterations := Nat.not_lt.mpr hiter
  have hne : ent.count ≠ Pbkdf2KeyLength := Nat.ne_of_lt hcount
  simp [GetPbkdf2Hash, hlt, herr, hne]

theorem C6_witness :
    GetPbkdf2Hash demoKdf ⟨[], 0, none⟩ "pw" 4096 =
      Except.error GoErr.insufficientEntropy :=
  C6_insufficient_entropy demoKdf ⟨[], 0, none⟩ "pw" 4096 (by decide) rfl
    (by decide)

/-- Helper: `Pbkdf2Hash.Check` only ever returns success or
`badPassword`. -/
theorem check_eq_none_or_badPassword
    (kdf : String → List Nat → Nat → List Nat) (hs : Pbkdf2Hash)
    (pass : String) :
    hs.Check kdf pass = none ∨ hs.Check kdf pass = some GoErr.badPassword := by
  simp only [Pbkdf2Hash.Check]
  split
  · exact Or.inl rfl
  · exact Or.inr rfl

/-- C8: `CheckPassword` fails with `noSuchIdentifier` exactly when the
identifier is absent from the store, and otherwise returns the result of
checking the password against the stored record. -/
theorem C8_check_password
    (kdf : String → List Nat → Nat → List Nat) (store : InMemPwdStore)
    (id pass : String) :
    (store.CheckPassword kdf id pass = some GoErr.noSuchIdentifier ↔
      store.lookup id = none) ∧
    (∀ hs, store.lookup id = some hs →
      store.CheckPassword kdf id pass = hs.Check kdf pass) := by
  constructor
  · cases hl : store.lookup id with
    | none => simp [InMemPwdStore.CheckPassword, hl]
    | some hs =>
      simp only [InMemPwdStore.CheckPassword, hl]
      constructor
      · intro h
        rcases check_eq_none_or_badPassword kdf hs pass with hc | hc <;>
          simp [hc] at h
      · intro h
        exact absurd h (by simp)
  · intro hs hl
    simp [InMemPwdStore.CheckPassword, hl]

theorem C8_witness :
    InMemPwdStore.CheckPassword demoKdf [] "alice" "pw" =
      some GoErr.noSuchIdentifier :=
  (C8_check_password demoKdf [] "alice" "pw").1.mpr rfl

/-! Standard base64 (RFC 4648 with padding), modelling Go
`encoding/base64.StdEncoding`.  Encoding processes three bytes into four
alphabet characters; a final group of one or two bytes is padded with
`=`.  Decoding requires a multiple of four characters, allows padding
only at the very end, and (like Go's non-strict decoder) ignores unused
trailing bits of the last sextet. -/

def b64EncodeStd : String :=
  "ABCDEFGHIJKLMNOPQRSTUVWXYZabcdefghijklmnopqrstuvwxyz0123456789+/"

def b64Alphabet : List Char := b64EncodeStd.data

def b64Char (n : Nat) : Char := b64Alphabet.getD n '?'

def b64Val (c : Char) : Option Nat :=
  let i := b64Alphabet.indexOf c
  if i < 64 then some i else none

def base64Encode : List Nat → List Char
  | [] => []
  | [b1] => [b64Char (b1 / 4), b64Char (b1 % 4 * 16), '=', '=']
  | [b1, b2] =>
      [b64Char (b1 / 4), b64Char (b1 % 4 * 16 + b2 / 16),
       b64Char (b2 % 16 * 4), '=']
  | b1 :: b2 :: b3 :: rest =>
      b64Char (b1 / 4) :: b64Char (b1 % 4 * 16 + b2 / 16) ::
        b64Char (b2 % 16 * 4 + b3 / 64) :: b64Char (b3 % 64) ::
        base64Encode rest

def base64Decode : List Char → Option (List Nat)
  | [] => some []
  | c1 :: c2 :: c3 :: c4 :: rest =>
    match b64Val c1, b64Val c2 with
    | some v1, some v2 =>
      if c3 = '=' then
        if c4 = '=' ∧ rest = [] then some [v1 * 4 + v2 / 16] else none
      else
        match b64Val c3 with
        | some v3 =>
          if c4 = '=' then
            if rest = [] then
              some [v1 * 4 + v2 / 16, v2 % 16 * 16 + v3 / 4]
            else none
          else
            match b64Val c4, base64Decode rest with
            | some v4, some bs =>
              some ((v1 * 4 + v2 / 16) :: (v2 % 16 * 16 + v3 / 4) ::
                (v3 % 4 * 64 + v4) :: bs)
            | _, _ => none
        | none => none
    | _, _ => none
  | _ => none

theorem b64Val_b64Char : ∀ n, n < 64 → b64Val (b64Char n) = some n := by
  decide

theorem b64Char_ne_pad : ∀ n, n < 64 → b64Char n ≠ '=' := by
  decide

theorem base64Decode_encode :
    ∀ bs : List Nat, (∀ b ∈ bs, b < 256) →
      base64Decode (base64Encode bs) = some bs
  | [], _ => rfl
  | [b1], h => by
    have hb1 : b1 < 256 := h b1 (by simp)
    have h1 : b1 / 4 < 64 := by omega
    have h2 : b1 % 4 * 16 < 64 := by omega
    simp [base64Encode, base64Decode, b64Val_b64Char _ h1,
      b64Val_b64Char _ h2]
    omega
  | [b1, b2], h => by
    have hb1 : b1 < 256 := h b1 (by simp)
    have hb2 : b2 < 256 := h b2 (by simp)
    have h1 : b1 / 4 < 64 := by omega
    have h2 : b1 % 4 * 16 + b2 / 16 < 64 := by omega
    have h3 : b2 % 16 * 4 < 64 := by omega
    simp [base64Encode, base64Decode, b64Val_b64Char _ h1,
      b64Val_b64Char _ h2, b64Val_b64Char _ h3, b64Char_ne_pad _ h3]
    omega
  | b1 :: b2 :: b3 :: rest, h => by
    have hb1 : b1 < 256 := h b1 (by simp)
    have hb2 : b2 < 256 := h b2 (by simp)
    have hb3 : b3 < 256 := h b3 (by simp)
    have h1 : b1 / 4 < 64 := by omega
    have h2 : b1 % 4 * 16 + b2 / 16 < 64 := by omega
    have h3 : b2 % 16 * 4 + b3 / 64 < 64 := by omega
    have h4 : b3 % 64 < 64 := by omega
    have ih := base64Decode_encode rest
      (fun b hb => h b (by simp [hb]))
    match rest with
    | [] =>
      simp [base64Encode, base64Decode, b64Val_b64Char _ h1,
        b64Val_b64Char _ h2, b64Val_b64Char _ h3, b64Val_b64Char _ h4,
        b64Char_ne_pad _ h3, b64Char_ne_pad _ h4]
      omega
    | r1 :: rrest =>
      simp [base64Encode, base64Decode, b64Val_b64Char _ h1,
        b64Val_b64Char _ h2, b64Val_b64Char _ h3, b64Val_b64Char _ h4,
        b64Char_ne_pad _ h3, b64Char_ne_pad _ h4, ih]
      omega

/-- Base64-decode a string (Go `base64.StdEncoding.DecodeString`). -/
def base64DecodeString (s : String) : Option (List Nat) :=
  base64Decode s.data

/-- Base64-encode bytes to a string
(Go `base64.StdEncoding.EncodeToString`). -/
def base64EncodeString (bs : List Nat) : String :=
  String.mk (base64Encode bs)

/-- Model of the intermediate struct both `Pbkdf2Hash.MarshalJSON` and
`Pbkdf2Hash.UnmarshalJSON` go through: base64 strings for hash and salt
plus the integer iteration count.  The `encoding/json` text layer is
treated as the identity on this struct. -/
structure Pbkdf2HashJSON where
  Hash : String
  Salt : String
  Iterations : Nat
  deriving DecidableEq, Repr

/-- Model of `Pbkdf2Hash.UnmarshalJSON` after JSON field extraction:
decode the hash, reject a wrong decoded length, decode the salt, reject
a wrong decoded length, reject a sub-floor iteration count, otherwise
build the record with constant-time copies. -/
def unmarshalPbkdf2Hash (t : Pbkdf2HashJSON) : Except GoErr Pbkdf2Hash :=
  match base64DecodeString t.Hash with
  | none => .error .corruptBase64
  | some h =>
    if h.length ≠ Pbkdf2KeyLength then .error .incorrectHashLength
    else
      match base64DecodeString t.Salt with
      | none => .error .corruptBase64
      | some s =>
        if s.length ≠ Pbkdf2KeyLength then .error .incorrectSaltLength
        else if t.Iterations < Pbkdf2MinIterations then
          .error .insufficientIterations
        else
          .ok { Hash := constantTimeCopy 1
                  (List.replicate Pbkdf2KeyLength 0) h
              , Salt := constantTimeCopy 1
                  (List.replicate Pbkdf2KeyLength 0) s
              , Iterations := t.Iterations }

/-- Model of `Pbkdf2Hash.MarshalJSON` up to JSON field formation:
base64-encode the hash and the salt and carry the iteration count. -/
def marshalPbkdf2Hash (hs : Pbkdf2Hash) : Pbkdf2HashJSON :=
  { Hash := base64EncodeString hs.Hash
  , Salt := base64EncodeString hs.Salt
  , Iterations := hs.Iterations }

/-- Validity invariant of a `Pbkdf2Hash` record, as maintained by the Go
type (`[64]byte` hash and salt, iteration floor). -/
def ValidPbkdf2Hash (hs : Pbkdf2Hash) : Prop :=
  hs.Hash.length = Pbkdf2KeyLength ∧ hs.Salt.length = Pbkdf2KeyLength ∧
  (∀ b ∈ hs.Hash, b < 256) ∧ (∀ b ∈ hs.Salt, b < 256) ∧
  Pbkdf2MinIterations ≤ hs.Iterations

instance (hs : Pbkdf2Hash) : Decidable (ValidPbkdf2Hash hs) := by
  unfold ValidPbkdf2Hash
  infer_instance

/-- C7: marshalling a valid record and unmarshalling the result yields
an identical record; and any serialized form whose hash or salt decodes
to a length other than 64 bytes, or whose iteration count is below
4096, fails to unmarshal. -/
theorem C7_marshal_roundtrip_and_reject :
    (∀ hs : Pbkdf2Hash, ValidPbkdf2Hash hs →
      unmarshalPbkdf2Hash (marshalPbkdf2Hash hs) = Except.ok hs) ∧
    (∀ t : Pbkdf2HashJSON,
      ((∃ h, base64DecodeString t.Hash = some h ∧
          h.length ≠ Pbkdf2KeyLength) ∨
       (∃ s, base64DecodeString t.Salt = some s ∧
          s.length ≠ Pbkdf2KeyLength) ∨
       t.Iterations < Pbkdf2MinIterations) →
      ∃ e, unmarshalPbkdf2Hash t = Except.error e) := by
  constructor
  · rintro ⟨hHash, hSalt, hIter⟩ ⟨hlh, hls, hbh, hbs, hit⟩
    have dh : base64DecodeString (base64EncodeString hHash) = some hHash :=
      base64Decode_encode hHash hbh
    have ds : base64DecodeString (base64EncodeString hSalt) = some hSalt :=
      base64Decode_encode hSalt hbs
    have hnlt : ¬hIter < Pbkdf2MinIterations := Nat.not_lt.mpr hit
    simp [unmarshalPbkdf2Hash, marshalPbkdf2Hash, dh, ds, hlh, hls, hnlt,
      constantTimeCopy]
  · intro t hbad
    unfold unmarshalPbkdf2Hash
    cases dh : base64DecodeString t.Hash with
    | none => exact ⟨_, rfl⟩
    | some h =>
      by_cases hlh : h.length = Pbkdf2KeyLength
      · simp only [hlh, ne_eq, not_true_eq_false, if_false]
        cases ds : base64DecodeString t.Salt with
        | none => exact ⟨_, rfl⟩
        | some s =>
          by_cases hls : s.length = Pbkdf2KeyLength
          · simp only [hls, ne_eq, not_true_eq_false, if_false]
            have hit : t.Iterations < Pbkdf2MinIterations := by
              rcases hbad with ⟨h', hh', hne⟩ | ⟨s', hs', hne⟩ | hit
              · rw [dh] at hh'
                cases hh'
                exact absurd hlh hne
              · rw [ds] at hs'
                cases hs'
                exact absurd hls hne
              · exact hit
            simp only [hit, if_true]
            exact ⟨_, rfl⟩
          · simp only [ne_eq, hls, not_false_eq_true, if_true]
            exact ⟨_, rfl⟩
      · simp only [ne_eq, hlh, not_false_eq_true, if_true]
        exact ⟨_, rfl⟩

/-- Concrete valid record used by witnesses. -/
def demoRecord : Pbkdf2Hash :=
  { Hash := List.replicate 64 0, Salt := List.replicate 64 0
  , Iterations := 4096 }

/-- Concrete serialized form whose hash decodes to 3 bytes. -/
def demoBadJSON : Pbkdf2HashJSON :=
  { Hash := "AAAA", Salt := "AAAA", Iterations := 4096 }

theorem C7_witness :
    unmarshalPbkdf2Hash (marshalPbkdf2Hash demoRecord) =
      Except.ok demoRecord ∧
    ∃ e, unmarshalPbkdf2Hash demoBadJSON = Except.error e :=
  ⟨C7_marshal_roundtrip_and_reject.1 demoRecord (by decide),
   C7_marshal_roundtrip_and_reject.2 demoBadJSON
     (Or.inl ⟨[0, 0, 0], by decide, by decide⟩)⟩

/-! The login handler (`LoginHandler.ServeHTTP`).  The external session
backend is modelled by its `GetValue`/`SetValue` contract on an
association list; the only session-read failure it produces is
`noSuchSessionValue` (other backend I/O errors, which the handler maps
to an internal-error response, are outside the model).  Logging is
modelled as always succeeding, and writing the response body as never
failing, as in the common path of the Go code. -/

/-- Session values are booleans or strings (`interface` values in Go). -/
inductive SVal
  | b (x : Bool)
  | s (x : String)
  deriving DecidableEq, Repr

inductive SessionErr
  | noSuchSessionValue
  deriving DecidableEq, Repr

abbrev Session := List (String × SVal)

/-- Session contract `GetValue`: the stored value, or
`noSuchSessionValue` when the key is absent. -/
def getValue (sesh : Session) (key : String) : Except SessionErr SVal :=
  match sesh.lookup key with
  | some v => .ok v
  | none => .error .noSuchSessionValue

/-- Session contract `SetValue`: overwrite the key (newest entry
shadows older ones under `List.lookup`). -/
def setValue (sesh : Session) (key : String) (v : SVal) : Session :=
  (key, v) :: sesh

/-- XSRFTokenLength is the length of XSRF token strings (Go constant:
the number of random bytes drawn per token). -/
def XSRFTokenLength : Nat := 64

def msgInvalidCredentials : String := "Invalid Credentials"

/-- Lowercase hex digits, as used by Go `encoding/hex` (its `hextable`
constant). -/
def hexTable : String := "0123456789abcdef"

def hexDigitChars : List Char := hexTable.data

/-- Model of Go `hex.EncodeToString`: two lowercase hex digits per
byte. -/
def hexEncode : List Nat → List Char
  | [] => []
  | b :: rest =>
      hexDigitChars.getD (b / 16) '0' :: hexDigitChars.getD (b % 16) '0' ::
        hexEncode rest

def hexEncodeString (bs : List Nat) : String := String.mk (hexEncode bs)

/-- The login handler configuration relevant to the request state
machine: the namespacing identifier.  The `PasswordChecker` and
`Downstream` collaborators are modelled by `LoginEnv.checkPassword` and
by the `forwarded` response. -/
structure LoginHandler where
  Identifier : String
  deriving DecidableEq, Repr

/-- One request as the handler sees it: whether `ParseForm` succeeds,
the parsed `PostForm` multimap, and the request URL path. -/
structure LoginRequest where
  parseFormOk : Bool
  postForm : List (String × List String)
  urlPath : String
  deriving DecidableEq, Repr

/-- The handler's environment for one request: the password-checking
collaborator's result function, and the outcome of the `rand.Read` call
that draws the next XSRF token (buffer contents, error, count). -/
structure LoginEnv where
  checkPassword : String → String → Option GoErr
  xsrfErr : Option GoErr
  xsrfBytes : List Nat
  xsrfCount : Nat

/-- The client-observable outcome of one request: an internal-error
page, forwarding to Downstream, a runtime panic (the Go type assertion
`xsrfStored.(string)` on a non-string value), or a rendered challenge
page carrying its error label, its fresh token, and its HTML. -/
inductive LoginResponse
  | internalError
  | forwarded
  | panicked
  | challenge (errString : String) (token : String) (html : String)
  deriving DecidableEq, Repr

structure ServeResult where
  resp : LoginResponse
  sesh : Session
  deriving DecidableEq, Repr

/-- The error label of a response, when it renders a challenge page. -/
def LoginResponse.errLabel : LoginResponse → Option String
  | .challenge e _ _ => some e
  | _ => none

/-- The literal login form markup written by the handler (the
`fmt.Fprintf` format string with its six arguments substituted). -/
def loginFormHTML (h : LoginHandler) (path errMarkup token : String) :
    String :=
  "<html><head><title>Pullcord Login</title></head><body>" ++
    "<form method=\"POST\" action=\"" ++ path ++ "\"><fieldset>" ++
    "<legend>Pullcord Login</legend>" ++ errMarkup ++
    "<label for=\"username\">Username:</label>" ++
    "<input type=\"text\" name=\"" ++ ("username-" ++ h.Identifier) ++
    "\" id=\"username\" />" ++
    "<label for=\"password\">Password:</label>" ++
    "<input type=\"password\" name=\"" ++ ("password-" ++ h.Identifier) ++
    "\"" ++ "id=\"password\" /><input type=\"hidden\" name=\"" ++
    ("xsrf-" ++ h.Identifier) ++ "\"" ++ " value=\"" ++ token ++
    "\" /><input type=\"submit\"" ++
    " value=\"Login\"/></fieldset></form></body></html>"

/-- The challenge-render tail of `ServeHTTP`: draw a fresh token (fatal
internal error when the entropy read errs or is short), store it under
`xsrf-<id>` (overwriting any prior value), and emit the form with the
optional error label. -/
def renderChallenge (h : LoginHandler) (env : LoginEnv) (sesh : Session)
    (errString : String) (path : String) : ServeResult :=
  if env.xsrfErr.isSome ∨ env.xsrfCount ≠ XSRFTokenLength then
    ⟨.internalError, sesh⟩
  else
    let nextXSRFToken := hexEncodeString env.xsrfBytes
    let sesh2 := setValue sesh ("xsrf-" ++ h.Identifier)
      (SVal.s nextXSRFToken)
    let errMarkup :=
      if errString ≠ "" then
        "<label class=\"error\">" ++ errString ++ "</label><br />"
      else ""
    ⟨.challenge errString nextXSRFToken
      (loginFormHTML h path errMarkup nextXSRFToken), sesh2⟩

/-- Model of `LoginHandler.ServeHTTP`, branch for branch:
authenticated sessions forward immediately (a non-boolean or false
`authenticated-<id>` value falls into the `err != NoSuchSessionValueError`
branch of the Go code and produces an internal error); a session without
an `xsrf-<id>` value renders a fresh challenge; otherwise the submission
is validated in order (form parse, single matching XSRF field in
constant time, single username and password fields, credential check),
every recoverable failure rendering a challenge with one of the two
fixed error strings, and full success setting `authenticated-<id>` to
`true` before forwarding. -/
def serveHTTP (h : LoginHandler) (env : LoginEnv) (sesh : Session)
    (req : LoginRequest) : ServeResult :=
  match getValue sesh ("authenticated-" ++ h.Identifier) with
  | .ok v =>
    if v = SVal.b true then ⟨.forwarded, sesh⟩
    else ⟨.internalError, sesh⟩
  | .error .noSuchSessionValue =>
    match getValue sesh ("xsrf-" ++ h.Identifier) with
    | .error .noSuchSessionValue => renderChallenge h env sesh "" req.urlPath
    | .ok xsrfStored =>
      if req.parseFormOk = false then
        renderChallenge h env sesh "Bad request" req.urlPath
      else
        match req.postForm.lookup ("xsrf-" ++ h.Identifier) with
        | none => renderChallenge h env sesh msgInvalidCredentials req.urlPath
        | some xsrfRcvd =>
          if xsrfRcvd.length ≠ 1 then
            renderChallenge h env sesh msgInvalidCredentials req.urlPath
          else
            match xsrfStored with
            | .b _ => ⟨.panicked, sesh⟩
            | .s storedToken =>
              if constantTimeCompare (strBytes storedToken)
                  (strBytes (xsrfRcvd.headD "")) ≠ 1 then
                renderChallenge h env sesh msgInvalidCredentials req.urlPath
              else
                match req.postForm.lookup ("username-" ++ h.Identifier) with
                | none =>
                  renderChallenge h env sesh msgInvalidCredentials req.urlPath
                | some uVals =>
                  match req.postForm.lookup ("password-" ++ h.Identifier) with
                  | none =>
                    renderChallenge h env sesh msgInvalidCredentials
                      req.urlPath
                  | some pVals =>
                    if uVals.length ≠ 1 ∨ pVals.length ≠ 1 then
                      renderChallenge h env sesh "Bad request" req.urlPath
                    else
                      match env.checkPassword (uVals.headD "")
                          (pVals.headD "") with
                      | some e =>
                        if e = GoErr.noSuchIdentifier then
                          renderChallenge h env sesh msgInvalidCredentials
                            req.urlPath
                        else if e = GoErr.badPassword then
                          renderChallenge h env sesh msgInvalidCredentials
                            req.urlPath
                        else ⟨.internalError, sesh⟩
                      | none =>
                        ⟨.forwarded, setValue sesh
                          ("authenticated-" ++ h.Identifier) (SVal.b true)⟩

/-! Laws of the session model and of the session keys. -/

theorem getValue_setValue_self (sesh : Session) (k : String) (v : SVal) :
    getValue (setValue sesh k v) k = .ok v := by
  simp [getValue, setValue, List.lookup]

theorem getValue_setValue_ne (sesh : Session) (k k' : String) (v : SVal)
    (h : k' ≠ k) : getValue (setValue sesh k v) k' = getValue sesh k' := by
  simp [getValue, setValue, List.lookup, beq_eq_false_iff_ne.mpr h]

theorem authKey_ne_xsrfKey (i : String) :
    "authenticated-" ++ i ≠ "xsrf-" ++ i := by
  intro heq
  have hl := congrArg String.length heq
  rw [String.length_append, String.length_append] at hl
  have h14 : "authenticated-".length = 14 := by decide
  have h5 : "xsrf-".length = 5 := by decide
  omega

/-! Shape of the hex-encoded XSRF tokens. -/

theorem hexEncode_length (bs : List Nat) :
    (hexEncode bs).length = 2 * bs.length := by
  induction bs with
  | nil => rfl
  | cons b rest ih => simp [hexEncode, ih]; omega

theorem hexDigit_mem : ∀ n, n < 16 → hexDigitChars.getD n '0' ∈ hexDigitChars := by
  decide

theorem hexEncode_mem (bs : List Nat) (h : ∀ b ∈ bs, b < 256) :
    ∀ c ∈ hexEncode bs, c ∈ hexDigitChars := by
  induction bs with
  | nil => simp [hexEncode]
  | cons b rest ih =>
    have hb : b < 256 := h b (by simp)
    intro c hc
    simp only [hexEncode, List.mem_cons] at hc
    rcases hc with rfl | rfl | hc
    · exact hexDigit_mem _ (by omega)
    · exact hexDigit_mem _ (by omega)
    · exact ih (fun x hx => h x (by simp [hx])) c hc

/-! Branch-shape lemmas for the handler. -/

theorem renderChallenge_shape (h : LoginHandler) (env : LoginEnv)
    (sesh : Session) (e path : String) :
    renderChallenge h env sesh e path = ⟨.internalError, sesh⟩ ∨
    renderChallenge h env sesh e path =
      ⟨.challenge e (hexEncodeString env.xsrfBytes)
        (loginFormHTML h path
          (if e ≠ "" then "<label class=\"error\">" ++ e ++ "</label><br />"
           else "")
          (hexEncodeString env.xsrfBytes)),
       setValue sesh ("xsrf-" ++ h.Identifier)
         (SVal.s (hexEncodeString env.xsrfBytes))⟩ := by
  unfold renderChallenge
  split
  · exact Or.inl rfl
  · exact Or.inr rfl

theorem renderChallenge_preserves_auth (h : LoginHandler) (env : LoginEnv)
    (sesh : Session) (e path : String) :
    getValue (renderChallenge h env sesh e path).sesh
        ("authenticated-" ++ h.Identifier) =
      getValue sesh ("authenticated-" ++ h.Identifier) := by
  rcases renderChallenge_shape h env sesh e path with hr | hr
  · rw [hr]
  · rw [hr]
    exact getValue_setValue_ne _ _ _ _ (authKey_ne_xsrfKey h.Identifier)

/-- Exhaustive description of the possible results of `serveHTTP`: the
session is returned untouched (forward, internal error, or panic), or a
challenge is rendered through `renderChallenge`, or the request fully
succeeded, in which case exactly one username and one password field
were submitted, the checker accepted them, and the authenticated flag
was written. -/
theorem serveHTTP_shape (h : LoginHandler) (env : LoginEnv)
    (sesh : Session) (req : LoginRequest) :
    serveHTTP h env sesh req = ⟨.forwarded, sesh⟩ ∨
    serveHTTP h env sesh req = ⟨.internalError, sesh⟩ ∨
    serveHTTP h env sesh req = ⟨.panicked, sesh⟩ ∨
    (∃ e, serveHTTP h env sesh req = renderChallenge h env sesh e req.urlPath) ∨
    ((∃ u p, req.postForm.lookup ("username-" ++ h.Identifier) = some [u] ∧
        req.postForm.lookup ("password-" ++ h.Identifier) = some [p] ∧
        env.checkPassword u p = none) ∧
      serveHTTP h env sesh req = ⟨.forwarded,
        setValue sesh ("authenticated-" ++ h.Identifier) (SVal.b true)⟩) := by
  obtain ⟨r, hr⟩ : ∃ r, serveHTTP h env sesh req = r := ⟨_, rfl⟩
  rw [hr]
  unfold serveHTTP at hr
  cases hauth : getValue sesh ("authenticated-" ++ h.Identifier) with
  | ok v =>
    simp only [hauth] at hr
    by_cases hv : v = SVal.b true
    · simp only [if_pos hv] at hr
      subst hr
      exact Or.inl rfl
    · simp only [if_neg hv] at hr
      subst hr
      exact Or.inr (Or.inl rfl)
  | error e0 =>
    cases e0
    simp only [hauth] at hr
    cases hx : getValue sesh ("xsrf-" ++ h.Identifier) with
    | error e1 =>
      cases e1
      simp only [hx] at hr
      subst hr
      exact Or.inr (Or.inr (Or.inr (Or.inl ⟨"", rfl⟩)))
    | ok xsrfStored =>
      simp only [hx] at hr
      by_cases hparse : req.parseFormOk = false
      · simp only [if_pos hparse] at hr
        subst hr
        exact Or.inr (Or.inr (Or.inr (Or.inl ⟨"Bad request", rfl⟩)))
      · simp only [if_neg hparse] at hr
        cases hfx : req.postForm.lookup ("xsrf-" ++ h.Identifier) with
        | none =>
          simp only [hfx] at hr
          subst hr
          exact Or.inr (Or.inr (Or.inr (Or.inl ⟨msgInvalidCredentials, rfl⟩)))
        | some xsrfRcvd =>
          simp only [hfx] at hr
          by_cases hlen : xsrfRcvd.length ≠ 1
          · simp only [if_pos hlen] at hr
            subst hr
            exact Or.inr (Or.inr (Or.inr (Or.inl
              ⟨msgInvalidCredentials, rfl⟩)))
          · simp only [if_neg hlen] at hr
            cases xsrfStored with
            | b bv =>
              simp only [] at hr
              subst hr
              exact Or.inr (Or.inr (Or.inl rfl))
            | s storedToken =>
              simp only [] at hr
              by_cases hcmp : constantTimeCompare (strBytes storedToken)
                  (strBytes (xsrfRcvd.headD "")) ≠ 1
              · simp only [if_pos hcmp] at hr
                subst hr
                exact Or.inr (Or.inr (Or.inr (Or.inl
                  ⟨msgInvalidCredentials, rfl⟩)))
              · simp only [if_neg hcmp] at hr
                cases hfu : req.postForm.lookup ("username-" ++ h.Identifier) with
                | none =>
                  simp only [hfu] at hr
                  subst hr
                  exact Or.inr (Or.inr (Or.inr (Or.inl
                    ⟨msgInvalidCredentials, rfl⟩)))
                | some uVals =>
                  simp only [hfu] at hr
                  cases hfp : req.postForm.lookup ("password-" ++ h.Identifier) with
                  | none =>
                    simp only [hfp] at hr
                    subst hr
                    exact Or.inr (Or.inr (Or.inr (Or.inl
                      ⟨msgInvalidCredentials, rfl⟩)))
                  | some pVals =>
                    simp only [hfp] at hr
                    by_cases hlens : uVals.length ≠ 1 ∨ pVals.length ≠ 1
                    · simp only [if_pos hlens] at hr
                      subst hr
                      exact Or.inr (Or.inr (Or.inr (Or.inl
                        ⟨"Bad request", rfl⟩)))
                    · simp only [if_neg hlens] at hr
                      cases hchk : env.checkPassword (uVals.headD "")
                          (pVals.headD "") with
                      | some e2 =>
                        simp only [hchk] at hr
                        by_cases he1 : e2 = GoErr.noSuchIdentifier
                        · simp only [if_pos he1] at hr
                          subst hr
                          exact Or.inr (Or.inr (Or.inr (Or.inl
                            ⟨msgInvalidCredentials, rfl⟩)))
                        · simp only [if_neg he1] at hr
                          by_cases he2 : e2 = GoErr.badPassword
                          · simp only [if_pos he2] at hr
                            subst hr
                            exact Or.inr (Or.inr (Or.inr (Or.inl
                              ⟨msgInvalidCredentials, rfl⟩)))
                          · simp only [if_neg he2] at hr
                            subst hr
                            exact Or.inr (Or.inl rfl)
                      | none =>
                        simp only [hchk] at hr
                        subst hr
                        refine Or.inr (Or.inr (Or.inr (Or.inr ⟨?_, rfl⟩)))
                        push_neg at hlens
                        obtain ⟨hu1, hp1⟩ := hlens
                        obtain ⟨u, hu⟩ : ∃ u, uVals = [u] :=
                          List.length_eq_one.mp hu1
                        obtain ⟨p, hp⟩ : ∃ p, pVals = [p] :=
                          List.length_eq_one.mp hp1
                        subst hu hp
                        refine ⟨u, p, rfl, rfl, ?_⟩
                        simpa using hchk

/-! The claims about the login handler. -/

/-- C9: a session whose `authenticated-<id>` value reads as `true` is
forwarded unconditionally: for every environment and every request the
result is exactly `forwarded` with the session untouched, so no form
parsing, no password check, no render, and no session write occur. -/
theorem C9_authenticated_forward (h : LoginHandler) (env : LoginEnv)
    (sesh : Session) (req : LoginRequest)
    (hauth : getValue sesh ("authenticated-" ++ h.Identifier) =
      .ok (SVal.b true)) :
    serveHTTP h env sesh req = ⟨.forwarded, sesh⟩ := by
  unfold serveHTTP
  simp [hauth]

/-- C3: starting from a session whose authenticated flag is unset, the
flag is still unset after the request unless the submission carried
exactly one username and one password field and the password checker
accepted them, in which case (and only then) it reads `true`. -/
theorem C3_auth_flag_only_after_success (h : LoginHandler) (env : LoginEnv)
    (sesh : Session) (req : LoginRequest)
    (hauth : getValue sesh ("authenticated-" ++ h.Identifier) =
      .error .noSuchSessionValue) :
    getValue (serveHTTP h env sesh req).sesh
        ("authenticated-" ++ h.Identifier) =
      .error .noSuchSessionValue ∨
    ((∃ u p, req.postForm.lookup ("username-" ++ h.Identifier) = some [u] ∧
        req.postForm.lookup ("password-" ++ h.Identifier) = some [p] ∧
        env.checkPassword u p = none) ∧
      getValue (serveHTTP h env sesh req).sesh
          ("authenticated-" ++ h.Identifier) =
        .ok (SVal.b true)) := by
  rcases serveHTTP_shape h env sesh req with hs | hs | hs | ⟨e, hs⟩ |
    ⟨hsucc, hs⟩
  · rw [hs]; exact Or.inl hauth
  · rw [hs]; exact Or.inl hauth
  · rw [hs]; exact Or.inl hauth
  · rw [hs]
    left
    rw [renderChallenge_preserves_auth]
    exact hauth
  · rw [hs]
    right
    exact ⟨hsucc, getValue_setValue_self _ _ _⟩

/-- Helper: whenever `serveHTTP` responds with a challenge, the carried
token is the hex encoding of the entropy draw and is exactly what the
session now stores under `xsrf-<id>`. -/
theorem challenge_token_spec (h : LoginHandler) (env : LoginEnv)
    (sesh : Session) (req : LoginRequest) (e tok html : String)
    (hchal : (serveHTTP h env sesh req).resp = .challenge e tok html) :
    tok = hexEncodeString env.xsrfBytes ∧
    getValue (serveHTTP h env sesh req).sesh ("xsrf-" ++ h.Identifier) =
      .ok (SVal.s tok) := by
  rcases serveHTTP_shape h env sesh req with hs | hs | hs | ⟨e0, hs⟩ |
    ⟨_, hs⟩
  · rw [hs] at hchal; exact absurd hchal (by simp)
  · rw [hs] at hchal; exact absurd hchal (by simp)
  · rw [hs] at hchal; exact absurd hchal (by simp)
  · rcases renderChallenge_shape h env sesh e0 req.urlPath with hr | hr
    · rw [hs, hr] at hchal
      exact absurd hchal (by simp)
    · rw [hs, hr] at hchal
      simp only [LoginResponse.challenge.injEq] at hchal
      obtain ⟨rfl, htok, rfl⟩ := hchal
      rw [hs, hr, ← htok]
      exact ⟨rfl, getValue_setValue_self _ _ _⟩
  · rw [hs] at hchal; exact absurd hchal (by simp)

/-- C4: every rendered challenge carries the token derived from the
fresh entropy draw and stores exactly that token in the session under
`xsrf-<id>` (overwriting any prior value); and a submission presenting a
token different from the currently stored one always yields the
Invalid Credentials outcome, with a result that does not depend on the
password checker at all. -/
theorem C4_token_rotation :
    (∀ (h : LoginHandler) (env : LoginEnv) (sesh : Session)
        (req : LoginRequest) (e tok html : String),
      (serveHTTP h env sesh req).resp = .challenge e tok html →
      tok = hexEncodeString env.xsrfBytes ∧
      getValue (serveHTTP h env sesh req).sesh ("xsrf-" ++ h.Identifier) =
        .ok (SVal.s tok)) ∧
    (∀ (h : LoginHandler) (env env' : LoginEnv) (sesh : Session)
        (req : LoginRequest) (t t' : String),
      getValue sesh ("authenticated-" ++ h.Identifier) =
        .error .noSuchSessionValue →
      getValue sesh ("xsrf-" ++ h.Identifier) = .ok (SVal.s t) →
      req.parseFormOk = true →
      req.postForm.lookup ("xsrf-" ++ h.Identifier) = some [t'] →
      t' ≠ t →
      env.xsrfErr = none → env.xsrfCount = XSRFTokenLength →
      env'.xsrfErr = env.xsrfErr → env'.xsrfBytes = env.xsrfBytes →
      env'.xsrfCount = env.xsrfCount →
      (serveHTTP h env sesh req).resp.errLabel =
        some msgInvalidCredentials ∧
      serveHTTP h env sesh req = serveHTTP h env' sesh req) := by
  constructor
  · exact challenge_token_spec
  · intro h env env' sesh req t t' hauth hx hparse hfx hne herr hcount
      herr' hbytes' hcount'
    have hcmp : constantTimeCompare (strBytes t) (strBytes t') ≠ 1 :=
      fun hcmp1 => hne
        (strBytes_inj _ _ ((constantTimeCompare_eq_one_iff _ _).mp hcmp1)).symm
    have hrc : renderChallenge h env' sesh msgInvalidCredentials req.urlPath =
        renderChallenge h env sesh msgInvalidCredentials req.urlPath := by
      unfold renderChallenge
      rw [herr', hbytes', hcount']
    constructor
    · unfold serveHTTP
      simp [hauth, hx, hparse, hfx, hcmp, renderChallenge, herr, hcount,
        LoginResponse.errLabel]
    · unfold serveHTTP
      simp [hauth, hx, hparse, hfx, hcmp, hrc]

/-- C2: a submission that passes the XSRF and field checks but whose
credential check returns `noSuchIdentifier` produces a challenge whose
error label is exactly the string Invalid Credentials, and the whole
response (label, token, HTML, session) is identical to the one produced
when the credential check returns `badPassword` instead. -/
theorem C2_same_label_for_bad_user_and_bad_password (h : LoginHandler)
    (env1 env2 : LoginEnv) (sesh : Session) (req : LoginRequest)
    (t u p : String)
    (hauth : getValue sesh ("authenticated-" ++ h.Identifier) =
      .error .noSuchSessionValue)
    (hx : getValue sesh ("xsrf-" ++ h.Identifier) = .ok (SVal.s t))
    (hparse : req.parseFormOk = true)
    (hfx : req.postForm.lookup ("xsrf-" ++ h.Identifier) = some [t])
    (hfu : req.postForm.lookup ("username-" ++ h.Identifier) = some [u])
    (hfp : req.postForm.lookup ("password-" ++ h.Identifier) = some [p])
    (hc1 : env1.checkPassword u p = some GoErr.noSuchIdentifier)
    (hc2 : env2.checkPassword u p = some GoErr.badPassword)
    (herr : env1.xsrfErr = none) (hcount : env1.xsrfCount = XSRFTokenLength)
    (herr2 : env2.xsrfErr = env1.xsrfErr)
    (hbytes2 : env2.xsrfBytes = env1.xsrfBytes)
    (hcount2 : env2.xsrfCount = env1.xsrfCount) :
    (serveHTTP h env1 sesh req).resp.errLabel = some "Invalid Credentials" ∧
    serveHTTP h env1 sesh req = serveHTTP h env2 sesh req := by
  have run1 : serveHTTP h env1 sesh req =
      renderChallenge h env1 sesh msgInvalidCredentials req.urlPath := by
    unfold serveHTTP
    simp [hauth, hx, hparse, hfx, hfu, hfp, hc1, constantTimeCompare_self]
  have run2 : serveHTTP h env2 sesh req =
      renderChallenge h env2 sesh msgInvalidCredentials req.urlPath := by
    unfold serveHTTP
    simp [hauth, hx, hparse, hfx, hfu, hfp, hc2, constantTimeCompare_self]
  have hrc : renderChallenge h env2 sesh msgInvalidCredentials req.urlPath =
      renderChallenge h env1 sesh msgInvalidCredentials req.urlPath := by
    unfold renderChallenge
    rw [herr2, hbytes2, hcount2]
  constructor
  · rw [run1]
    unfold renderChallenge
    simp [herr, hcount, LoginResponse.errLabel, msgInvalidCredentials]
  · rw [run1, run2, hrc]

/-- C10: under the `crypto/rand` contract (a full 64-byte buffer of
bytes), every token a rendered challenge stores and embeds is the
lowercase hex encoding of those 64 bytes: a string of exactly 128
lowercase hexadecimal characters. -/
theorem C10_token_hex_shape (h : LoginHandler) (env : LoginEnv)
    (sesh : Session) (req : LoginRequest)
    (hlen : env.xsrfBytes.length = XSRFTokenLength)
    (hbytes : ∀ b ∈ env.xsrfBytes, b < 256)
    (e tok html : String)
    (hchal : (serveHTTP h env sesh req).resp = .challenge e tok html) :
    tok.length = 128 ∧ ∀ c ∈ tok.data, c ∈ hexDigitChars := by
  have htok : tok = hexEncodeString env.xsrfBytes :=
    (challenge_token_spec h env sesh req e tok html hchal).1
  subst htok
  constructor
  · show (hexEncode env.xsrfBytes).length = 128
    rw [hexEncode_length, hlen]
    decide
  · intro c hc
    exact hexEncode_mem env.xsrfBytes hbytes c hc

/-! Concrete fixtures and witnesses for the handler claims. -/

def demoHandler : LoginHandler := ⟨"main"⟩

def demoEnv : LoginEnv :=
  { checkPassword := fun _ _ => none, xsrfErr := none
  , xsrfBytes := List.replicate 64 0, xsrfCount := 64 }

def demoEnvNoId : LoginEnv :=
  { demoEnv with checkPassword := fun _ _ => some GoErr.noSuchIdentifier }

def demoEnvBadPw : LoginEnv :=
  { demoEnv with checkPassword := fun _ _ => some GoErr.badPassword }

def demoSeshAuth : Session := [("authenticated-main", SVal.b true)]

def demoSeshXsrf : Session := [("xsrf-main", SVal.s "tok")]

def demoReq : LoginRequest :=
  { parseFormOk := true
  , postForm := [("xsrf-main", ["tok"]), ("username-main", ["alice"]),
      ("password-main", ["pw"])]
  , urlPath := "/" }

def demoReqStale : LoginRequest :=
  { demoReq with postForm := [("xsrf-main", ["old"]),
      ("username-main", ["alice"]), ("password-main", ["pw"])] }

def demoReqGet : LoginRequest :=
  { parseFormOk := true, postForm := [], urlPath := "/" }

theorem C9_witness :
    serveHTTP demoHandler demoEnv demoSeshAuth demoReq =
      ⟨LoginResponse.forwarded, demoSeshAuth⟩ :=
  C9_authenticated_forward demoHandler demoEnv demoSeshAuth demoReq rfl

theorem C3_witness :
    getValue (serveHTTP demoHandler demoEnv demoSeshXsrf demoReq).sesh
        ("authenticated-" ++ demoHandler.Identifier) =
      .error .noSuchSessionValue ∨
    ((∃ u p, demoReq.postForm.lookup
          ("username-" ++ demoHandler.Identifier) = some [u] ∧
        demoReq.postForm.lookup
          ("password-" ++ demoHandler.Identifier) = some [p] ∧
        demoEnv.checkPassword u p = none) ∧
      getValue (serveHTTP demoHandler demoEnv demoSeshXsrf demoReq).sesh
          ("authenticated-" ++ demoHandler.Identifier) =
        .ok (SVal.b true)) :=
  C3_auth_flag_only_after_success demoHandler demoEnv demoSeshXsrf demoReq rfl

theorem C4_witness :
    (serveHTTP demoHandler demoEnv demoSeshXsrf demoReqStale).resp.errLabel =
      some msgInvalidCredentials ∧
    serveHTTP demoHandler demoEnv demoSeshXsrf demoReqStale =
      serveHTTP demoHandler demoEnv demoSeshXsrf demoReqStale :=
  C4_token_rotation.2 demoHandler demoEnv demoEnv demoSeshXsrf demoReqStale
    "tok" "old" rfl rfl rfl rfl (by decide) rfl rfl rfl rfl rfl

theorem C2_witness :
    (serveHTTP demoHandler demoEnvNoId demoSeshXsrf demoReq).resp.errLabel =
      some "Invalid Credentials" ∧
    serveHTTP demoHandler demoEnvNoId demoSeshXsrf demoReq =
      serveHTTP demoHandler demoEnvBadPw demoSeshXsrf demoReq :=
  C2_same_label_for_bad_user_and_bad_password demoHandler demoEnvNoId
    demoEnvBadPw demoSeshXsrf demoReq "tok" "alice" "pw" rfl rfl rfl rfl rfl
    rfl rfl rfl rfl rfl rfl rfl rfl

theorem C10_witness :
    (hexEncodeString demoEnv.xsrfBytes).length = 128 ∧
    ∀ c ∈ (hexEncodeString demoEnv.xsrfBytes).data, c ∈ hexDigitChars :=
  C10_token_hex_shape demoHandler demoEnv [] demoReqGet rfl (by decide) ""
    (hexEncodeString demoEnv.xsrfBytes)
    (loginFormHTML demoHandler "/" "" (hexEncodeString demoEnv.xsrfBytes)) rfl

end Pullcord
